import Mathlib

/-!
# Verification of the vidzly video-creation pipeline

A shallow embedding of the media-pipeline core of the repository:

* `video_clipper`        — `src/app/tools/video_clipper.py` (Segment Extractor)
* `video_composer`       — `src/app/tools/video_composer.py` (Timeline Compositor)
* `video_script_generator` — `src/app/tools/video_script_generator.py` (Script Planner)
* `video_summarizer`     — `src/app/tools/video_summarizer.py` (Content Summarizer)
* `frame_extractor`      — `src/app/tools/frame_extractor.py` (Frame Selector)

Python floats are modelled as rationals (`ℚ`); Python's 2-decimal `round`
(half-to-even, as Python's builtin `round`) is `round2`.  External
collaborators (moviepy constructors, the Gemini client, `video_clipper`
results, the codec `write_videofile`) are modelled as environment records
whose fields say, for each call the Python code makes, whether it raises
and what it returns.  Fallible Python code is `Except`; every definition is
executable so that concrete runs can be settled by `decide`.
-/

namespace Vidzly

/-- Python's builtin `round` to an integer: round half to even. -/
def pyRoundInt (q : ℚ) : ℤ :=
  let f := ⌊q⌋
  let r := q - (f : ℚ)
  if r < 1/2 then f
  else if 1/2 < r then f + 1
  else if f % 2 = 0 then f else f + 1

/-- Python's `round(x, 2)`: round to 2 decimal places, half to even. -/
def round2 (q : ℚ) : ℚ := (pyRoundInt (100 * q) : ℚ) / 100

/-- Python's `int(x)` on a float: truncation toward zero. -/
def pyInt (q : ℚ) : ℤ := if q < 0 then ⌈q⌉ else ⌊q⌋

/-!
## Timeline Compositor: per-scene timestamp resolution and clamping

`video_composer.py`, lines 278–295.  A scene's `end_time` is computed from
`duration` when absent (or defaults to the real clip duration), then both
times are clamped against the real duration `D` of the resolved source clip.
-/

/-- `video_composer.py` lines 279–282: derive the working `end_time` from the
scene's optional `end_time`/`duration` fields and the probed duration `D`. -/
def resolveEndTime (start : ℚ) (endT : Option ℚ) (dur : Option ℚ) (D : ℚ) : ℚ :=
  match endT, dur with
  | none, some d => start + d
  | none, none => D
  | some e, _ => e

/-- `video_composer.py` lines 284–295: clamp `(start, end)` against the real
clip duration `D`.  If `start ≥ D` the range is relocated to the last
`min 2 D` seconds; otherwise `start` is clamped into `[0, D - 0.1]` and
`end` into `[start + 0.1, D]`-ish (lower bound wins over the `min`). -/
def clampTimes (start endT D : ℚ) : ℚ × ℚ :=
  if D ≤ start then
    let clipDuration := min 2 D
    (max 0 (D - clipDuration), D)
  else
    let s := max 0 (min start (D - 1/10))
    (s, max (s + 1/10) (min endT D))

/-!
## Segment Extractor

`video_clipper.py`.  Only the decision structure on times matters to the
claims: file lookup, the three validations, the end-time clamp, and the
written segment range.  The value returned is the `[start, end)` range the
code passes to `subclipped` (the segment artifact's content).
-/

/-- `video_clipper.py` lines 23–59: validation and clamping of a requested
extraction range against the probed source duration `D`.  `fileOk` is
whether `os.path.exists` succeeds for the source path.  Returns the
subclip range actually extracted, or the raised error message. -/
def video_clipper (fileOk : Bool) (D start endT : ℚ) : Except String (ℚ × ℚ) :=
  if fileOk = false then .error "Video file not found"
  else if start < 0 then .error "Start time must be >= 0"
  else if endT ≤ start then .error "End time must be greater than start time"
  else if D ≤ start then .error "Start time exceeds video duration"
  else
    let e := if D < endT then D else endT
    .ok (start, e)

/-!
## Script Planner data model

`video_script_generator.py`.  Video summaries and scripts are JSON objects;
we model the fields the planner reads and writes, each optional exactly as a
JSON key may be absent.  Summaries are taken well-typed (numeric durations,
list-valued mood tags) as produced by `video_summarizer.py`.
-/

/-- A parsed video summary, as consumed by `video_script_generator.py`
  (`summary.get("duration")`, `summary.get("mood_tags")`, `summary.get("summary")`). -/
structure VSummary where
  duration : Option ℚ
  mood_tags : Option (List String)
  summary : Option String
  deriving DecidableEq

/-- One scene object of a script, with the fields the planner touches
(`duration`, `start_time`, `end_time`) and those it only carries along. -/
structure GScene where
  scene_id : Option ℤ
  source_video : Option ℤ
  start_time : Option ℚ
  end_time : Option ℚ
  duration : Option ℚ
  description : Option String
  transition_in : Option String
  transition_out : Option String
  deriving DecidableEq

/-- The `music` object of a script. -/
structure MusicJson where
  mood : Option String
  bpm : Option ℚ
  sync_points : Option (List ℚ)
  volume : Option ℚ
  deriving DecidableEq

/-- The script object returned by `video_script_generator` (after defaults
have been filled in, or as produced by the fallback path). -/
structure ScriptOut where
  total_duration : ℚ
  scenes : List GScene
  music : MusicJson
  pacing : Option String
  narrative_structure : Option String
  visual_style : Option String
  deriving DecidableEq

/-- The collaborator's script as parsed from its JSON answer: any field may
be missing. -/
structure AIScript where
  total_duration : Option ℚ
  scenes : Option (List GScene)
  music : Option MusicJson
  pacing : Option String
  narrative_structure : Option String
  visual_style : Option String
  deriving DecidableEq

/-- Outcome of the `client.models.generate_content` call in
`video_script_generator.py`: the call raises, or returns text whose
JSON extraction (after markdown-fence stripping) fails (`none`,
a `json.JSONDecodeError`) or yields a script object. -/
inductive GenOutcome
  | raises
  | returns (parsed : Option AIScript)
  deriving DecidableEq

/-- Environment of one `video_script_generator` call: whether
`GOOGLE_API_KEY` is set, and what the collaborator call does. -/
structure GenEnv where
  apiKey : Bool
  outcome : GenOutcome
  deriving DecidableEq

/-- `scene.get("duration", 0)` summed over scenes
(`video_script_generator.py` lines 379–381). -/
def sceneDur (s : GScene) : ℚ := s.duration.getD 0

/-- Sum of declared scene durations. -/
def totalSceneDuration (scenes : List GScene) : ℚ := (scenes.map sceneDur).sum

/-- `video_script_generator.py` lines 386–393, one scene of the rescale
loop: scale `duration` (2-decimal rounded) when the key is present; then,
when both `start_time` and `end_time` are present, recompute `end_time` as
`round(start_time + scene["duration"], 2)` — a `KeyError` (modelled as
`.error ()`) when that scene has no `duration` key. -/
def rescaleScene (scale : ℚ) (s : GScene) : Except Unit GScene :=
  let s1 : GScene :=
    match s.duration with
    | some d => { s with duration := some (round2 (d * scale)) }
    | none => s
  match s1.start_time, s1.end_time with
  | some st, some _ =>
    match s1.duration with
    | some d => .ok { s1 with end_time := some (round2 (st + d)) }
    | none => .error ()
  | _, _ => .ok s1

/-- The `for scene in script["scenes"]` rescale loop (stops at the first
raise, like the Python `for`). -/
def rescaleList (scale : ℚ) : List GScene → Except Unit (List GScene)
  | [] => .ok []
  | s :: rest =>
    match rescaleScene scale s with
    | .error e => .error e
    | .ok s2 =>
      match rescaleList scale rest with
      | .error e => .error e
      | .ok rest2 => .ok (s2 :: rest2)

/-- `video_script_generator.py` lines 378–394: if the declared scene
durations drift from `target` by more than 5 s and their sum is positive,
scale every scene and set `total_duration` to `target`; otherwise leave the
script untouched.  `td` is the script's current `total_duration`. -/
def adjustDurations (target td : ℚ) (scenes : List GScene) :
    Except Unit (ℚ × List GScene) :=
  let total := totalSceneDuration scenes
  if 5 < |total - target| then
    if 0 < total then
      match rescaleList (target / total) scenes with
      | .ok scenes2 => .ok (target, scenes2)
      | .error e => .error e
    else .ok (td, scenes)
  else .ok (td, scenes)

/-- How one scene looks after the rescale loop, relative to its original:
`duration` scaled by `scale` and 2-decimal rounded, `start_time` untouched,
and `end_time` recomputed as `round(start_time + scaled duration, 2)` when
both time keys are present. -/
def RescaledScene (scale : ℚ) (s s2 : GScene) : Prop :=
  s2.duration = s.duration.map (fun d => round2 (d * scale)) ∧
  s2.start_time = s.start_time ∧
  s2.end_time = (match s.start_time, s.end_time, s.duration with
    | some st, some _, some d => some (round2 (st + round2 (d * scale)))
    | _, _, _ => s.end_time)

/-- `video_script_generator.py` lines 237–267 and 424–460: the deterministic
single-scene fallback script built from the first summary. -/
def fallbackScript (summary : VSummary) (target : ℚ) : ScriptOut :=
  let duration := summary.duration.getD target
  let clip := min duration target
  let mood :=
    match summary.mood_tags with
    | none => "energetic"
    | some [] => "energetic"
    | some (m :: _) => m
  { total_duration := clip
    scenes := [{ scene_id := some 1, source_video := some 0,
                 start_time := some 0, end_time := some clip,
                 duration := some clip,
                 description := some ((summary.summary.getD "Video clip").take 100),
                 transition_in := some "fade", transition_out := some "fade" }]
    music := { mood := some mood, bpm := none, sync_points := none,
               volume := some (1/2) }
    pacing := some "moderate"
    narrative_structure := some "single scene"
    visual_style := none }

/-- `video_script_generator.py` lines 398–404: first mood tag collected
across all summaries (list-typed tags only), defaulting to `"energetic"`. -/
def collectMood (summaries : List VSummary) : String :=
  match (summaries.map (fun s => s.mood_tags.getD [])).flatten with
  | [] => "energetic"
  | m :: _ => m

/-- `video_script_generator.py`, `video_script_generator`: input validation,
the no-credential fallback, the collaborator call, lenient-parse fallback on
`json.JSONDecodeError`, structural validation, the rescale pass, and default
filling.  Any failure other than a JSON decode error is re-raised
(lines 462–463), modelled as `.error`. -/
def video_script_generator (env : GenEnv) (summaries : List VSummary)
    (target : ℚ) : Except String ScriptOut :=
  match summaries with
  | [] => .error "No video summaries provided"
  | s0 :: _ =>
    if target ≤ 0 then .error "target_duration must be greater than 0"
    else if env.apiKey = false then .ok (fallbackScript s0 target)
    else
      match env.outcome with
      | .raises => .error "Error generating video script"
      | .returns none => .ok (fallbackScript s0 target)
      | .returns (some ai) =>
        match ai.scenes with
        | none => .error "Generated script missing scenes field"
        | some [] => .error "Generated script must contain at least one scene"
        | some scenes =>
          let td0 := ai.total_duration.getD target
          match adjustDurations target td0 scenes with
          | .error _ => .error "Error generating video script"
          | .ok (td1, scenes1) =>
            let music := ai.music.getD
              { mood := some (collectMood summaries), bpm := none,
                sync_points := none, volume := some (1/2) }
            .ok { total_duration := td1, scenes := scenes1, music := music,
                  pacing := some (ai.pacing.getD "moderate"),
                  narrative_structure :=
                    some (ai.narrative_structure.getD "linear"),
                  visual_style := some (ai.visual_style.getD "standard") }

/-- A concrete well-typed summary used to instantiate planner runs. -/
def sampleSummary : VSummary :=
  { duration := some 10, mood_tags := some ["calm"], summary := some "clip" }

/-!
## Content Summarizer, no-credential path

`video_summarizer.py` lines 35–65: the video is probed with OpenCV, and when
`GOOGLE_API_KEY` is absent the summarizer returns the probed metadata with an
"analysis requires the key" summary and empty mood tags.
-/

/-- Result of the OpenCV probe in `video_summarizer.py` lines 39–43. -/
structure ProbeResult where
  video_fps : ℚ
  frame_count : ℕ
  width : ℕ
  height : ℕ
  deriving DecidableEq

/-- The JSON object returned by the summarizer. -/
structure SummaryOut where
  duration : ℚ
  resolution : String
  fps : ℚ
  frame_count : ℕ
  summary : String
  key_scenes : List String
  detected_objects : List String
  mood_tags : List String
  thumbnail_timeframe : ℚ
  deriving DecidableEq

/-- `video_summarizer.py` line 41: `frame_count / video_fps if video_fps > 0 else 0`. -/
def probedDuration (p : ProbeResult) : ℚ :=
  if 0 < p.video_fps then (p.frame_count : ℚ) / p.video_fps else 0

/-- `video_summarizer.py` lines 48–65: the summary returned when no API
credential is configured (the branch never raises). -/
def video_summarizer_noKey (p : ProbeResult) : SummaryOut :=
  let duration := probedDuration p
  let tt := if 0 < duration then round2 (duration / 2) else 0
  { duration := round2 duration
    resolution := toString p.width ++ "x" ++ toString p.height
    fps := round2 p.video_fps
    frame_count := p.frame_count
    summary := "Video analysis requires GOOGLE_API_KEY environment variable"
    key_scenes := []
    detected_objects := []
    mood_tags := []
    thumbnail_timeframe := tt }

/-!
## Frame Selector

`frame_extractor.py`, `frame_extractor`: strategy dispatch.  Only what the
selector decides from the probed metadata matters: which policy runs and, for
single-frame policies, which frame index `extract_frame_at_timestamp` seeks
(`frame_number = int(timestamp * fps)`, line 118).
-/

/-- What a `frame_extractor` run does to produce its artifact. -/
inductive FrameAction
  /-- one `cap.read()` at frame index `n` (via `extract_frame_at_timestamp`) -/
  | singleFrame (n : ℤ)
  /-- the quality-scored sampling loop of `extract_best_frame` -/
  | qualitySampled
  /-- the candidate-ranking path of `extract_ai_selected_frame` -/
  | aiRanked
  deriving DecidableEq

/-- `frame_extractor.py` lines 356–412: probe, zero-duration check and
strategy dispatch.  `fileOk` is the `os.path.exists` + `cap.isOpened`
check; `fps`/`frames` are the probed metadata. -/
def frame_extractor (fileOk : Bool) (fps : ℚ) (frames : ℕ)
    (strategy : String) (custom_timestamp : Option ℚ) :
    Except String FrameAction :=
  if fileOk = false then .error "Video file not found"
  else
    let duration := if 0 < fps then (frames : ℚ) / fps else 0
    if duration = 0 then .error "Video has zero duration"
    else
      match strategy with
      | "middle" => .ok (.singleFrame (pyInt (duration / 2 * fps)))
      | "best" => .ok .qualitySampled
      | "ai" => .ok .aiRanked
      | "custom" =>
        match custom_timestamp with
        | none => .error "custom_timestamp is required when strategy is custom"
        | some t =>
          if t < 0 ∨ duration < t then
            .error "custom_timestamp must be between 0 and duration"
          else .ok (.singleFrame (pyInt (t * fps)))
      | _ => .error "Invalid strategy"

/-!
## Timeline Compositor

`video_composer.py`, `video_composer`.  The script is a parsed JSON object:
a scene's `source_video` is an int or a string, and its `duration` may be
any JSON value (the AI planner writes it), so it is modelled as a tagged
number-or-string.  The moviepy collaborator is an environment record: each
constructor either raises or yields a value.  Decoder/file handles — the
per-scene `VideoFileClip` probe, each loaded segment `VideoFileClip`, and
the `AudioFileClip` — are tracked as acquire/release events with sequential
ids (`ImageClip` and `CompositeVideoClip` hold no decoder resource of their
own and `close` on a composite does not close its component clips).
-/

/-- A scene's `source_video` reference: int index or filename string. -/
inductive SrcRef
  | idx (i : ℤ)
  | name (s : String)
  deriving DecidableEq

/-- A scene's `duration` field as found in parsed JSON. -/
inductive JDur
  | num (q : ℚ)
  | str (s : String)
  deriving DecidableEq

/-- One scene of a composer script. -/
structure CScene where
  scene_id : Option ℤ
  source_video : Option SrcRef
  start_time : Option ℚ
  end_time : Option ℚ
  duration : Option JDur
  transition_in : Option String
  transition_out : Option String
  deriving DecidableEq

/-- A composer script: scenes plus `script.get("music", {}).get("volume", 0.5)`. -/
structure CScript where
  total_duration : Option ℚ
  scenes : List CScene
  musicVolume : Option ℚ
  deriving DecidableEq

/-- Environment of one `video_composer` call: what each external call the
Python code makes would do. -/
structure ComposerEnv where
  /-- `os.path.exists` -/
  fileExists : String → Bool
  /-- `VideoFileClip(source_video).duration`, or the constructor raises -/
  probeDuration : String → Except Unit ℚ
  /-- `video_clipper(source, start, end)`: clipped path, or raises -/
  clipperOut : String → ℚ → ℚ → Except Unit String
  /-- `VideoFileClip(clip_path).duration`, or the constructor raises -/
  loadDuration : String → Except Unit ℚ
  /-- `CompositeVideoClip` / `concatenate_videoclips` succeeds -/
  composeOk : Bool
  /-- the whole thumbnail-overlay block (PIL, `ImageClip`, composite) succeeds -/
  thumbOverlayOk : Bool
  /-- `AudioFileClip(music_path).duration`, or the constructor raises -/
  audioDuration : Except Unit ℚ
  /-- `subclipped` / loop-concatenate / `with_volume_scaled` / `with_audio` succeed -/
  audioOpsOk : Bool
  /-- `final_video.write_videofile` succeeds -/
  writeOk : Bool

/-- Which kind of decoder handle an acquire event created. -/
inductive HKind
  | probe
  | segment
  | audio
  deriving DecidableEq

/-- A handle (clip) lifecycle event. -/
inductive HEvent
  | acquire (k : HKind) (i : ℕ)
  | release (i : ℕ)
  deriving DecidableEq

/-- Handle-tracking state: next fresh id and the event log so far. -/
structure HSt where
  nextId : ℕ
  events : List HEvent
  deriving DecidableEq

/-- Initial handle state. -/
def HSt.init : HSt := ⟨0, []⟩

/-- A clip constructor returned: record the new handle. -/
def acquireH (st : HSt) (k : HKind) : HSt × ℕ :=
  (⟨st.nextId + 1, st.events ++ [.acquire k st.nextId]⟩, st.nextId)

/-- `clip.close()` on the handle with id `i`. -/
def releaseH (st : HSt) (i : ℕ) : HSt :=
  { st with events := st.events ++ [.release i] }

/-- Ids of all handles acquired in an event log. -/
def acquiredIds (evs : List HEvent) : List ℕ :=
  evs.filterMap (fun e => match e with | .acquire _ i => some i | .release _ => none)

/-- How often handle `i` was released. -/
def releaseCount (evs : List HEvent) (i : ℕ) : ℕ :=
  (evs.filter (fun e => e == HEvent.release i)).length

/-- Every handle acquired in the log is released exactly once. -/
def ClosedExactlyOnce (evs : List HEvent) : Prop :=
  ∀ i ∈ acquiredIds evs, releaseCount evs i = 1

/-- `os.path.basename`: the component after the last `/`. -/
def basename (p : String) : String := (p.splitOn "/").getLastD p

/-- `video_composer.py` lines 262–268: clamp an integer `source_video`
index into the valid range instead of erroring. -/
def clampIdx (n : ℕ) (i : ℤ) : ℤ :=
  if i < 0 then 0 else if (n : ℤ) ≤ i then (n : ℤ) - 1 else i

/-- `video_composer.py` lines 209–246, `resolve_source_video` (called after
the loop-level index clamping, so int indices are in range): int indices
select from the clip list; strings match by basename or full path. -/
def resolveSourceVideo (clips : List String) (r : SrcRef) : Except String String :=
  match r with
  | .idx i => .ok (clips.getD (clampIdx clips.length i).toNat "")
  | .name s =>
    match clips.find? (fun p => basename p == s || p == s) with
    | some p => .ok p
    | none => .error "source_video not found in video_clips"

/-- `video_composer.py` lines 262–268: the in-place write-back of an
out-of-range int `source_video` reference (scenes with in-range, string or
missing references are untouched). -/
def mutateScene (clips : List String) (scene : CScene) : CScene :=
  match scene.source_video with
  | some (.idx i) =>
    if i < 0 ∨ (clips.length : ℤ) ≤ i then
      { scene with source_video := some (.idx (clampIdx clips.length i)) }
    else scene
  | _ => scene

/-- `video_composer.py` lines 250–301, one iteration of the extraction
loop, without the scene write-back: resolve the (clamped) source, probe its
duration (`VideoFileClip` opened and closed at once), derive and clamp the
scene times, and call `video_clipper`.  Returns the updated handle state
and the clipped path or the raised error. -/
def extractSceneCore (env : ComposerEnv) (clips : List String) (st : HSt)
    (scene : CScene) : HSt × Except String String :=
  match scene.source_video with
  | none => (st, .error "Scene missing source_video")
  | some r =>
    let rr := match r with | .idx i => SrcRef.idx (clampIdx clips.length i) | x => x
    match resolveSourceVideo clips rr with
    | .error e => (st, .error e)
    | .ok path =>
      match env.probeDuration path with
      | .error _ => (st, .error "could not open source video")
      | .ok D =>
        let st1h := acquireH st .probe
        let st2 := releaseH st1h.1 st1h.2
        let start := scene.start_time.getD 0
        let endE : Except String ℚ :=
          match scene.end_time, scene.duration with
          | none, some (.num d) => .ok (start + d)
          | none, some (.str _) => .error "TypeError: float + str"
          | none, none => .ok D
          | some e, _ => .ok e
        match endE with
        | .error e => (st2, .error e)
        | .ok e0 =>
          match clampTimes start e0 D with
          | (s1, e1) =>
            match env.clipperOut path s1 e1 with
            | .error _ => (st2, .error "Error clipping video")
            | .ok cp => (st2, .ok cp)

/-- One iteration of the extraction loop: the scene's reference clamp is
written back in place (the mutation happens before any raise point that
follows it, and the only earlier raise — a missing `source_video` — leaves
the scene untouched, as `mutateScene` does). -/
def extractScene (env : ComposerEnv) (clips : List String) (st : HSt)
    (scene : CScene) : HSt × CScene × Except String String :=
  let core := extractSceneCore env clips st scene
  (core.1, mutateScene clips scene, core.2)

/-- The extraction loop over all scenes.  Stops at the first raise; scenes
after the failure point keep their original (unmutated) fields. -/
def extractLoop (env : ComposerEnv) (clips : List String) :
    HSt → List CScene → HSt × List CScene × Except String (List String)
  | st, [] => (st, [], .ok [])
  | st, scene :: rest =>
    match extractScene env clips st scene with
    | (st1, scene', .error e) => (st1, scene' :: rest, .error e)
    | (st1, scene', .ok cp) =>
      match extractLoop env clips st1 rest with
      | (st2, rest', res) => (st2, scene' :: rest', res.map (cp :: ·))

/-- `video_composer.py` lines 303–324, the load-and-validate loop: open each
clipped segment, then accumulate `expected_total_duration +=
scene.get("duration", actual)` — which raises a `TypeError` when the
scene's declared duration is a string, after the `VideoFileClip` was opened
but before it was appended to `video_clips_loaded`.  Returns the handle
state, the ids appended to `video_clips_loaded`, and the actual segment
durations or the raised error. -/
def loadLoop (env : ComposerEnv) :
    HSt → List ℕ → List (String × CScene) → HSt × List ℕ × Except String (List ℚ)
  | st, loaded, [] => (st, loaded, .ok [])
  | st, loaded, (cp, scene) :: rest =>
    if env.fileExists cp = false then (st, loaded, .error "Video clip not found")
    else
      match env.loadDuration cp with
      | .error _ => (st, loaded, .error "could not open clip")
      | .ok d =>
        let st1h := acquireH st .segment
        match scene.duration with
        | some (.str _) => (st1h.1, loaded, .error "TypeError: float + str")
        | _ =>
          match loadLoop env st1h.1 (loaded ++ [st1h.2]) rest with
          | (st2, loaded2, res) => (st2, loaded2, res.map (d :: ·))

/-- `video_composer.py` lines 334–340: does any scene declare a crossfade
transition (in or out)? -/
def hasCrossfade (scenes : List CScene) : Bool :=
  scenes.any (fun s =>
    s.transition_in == some "crossfade" || s.transition_out == some "crossfade")

/-- Per-scene flag: `scene.get("transition_in") == "crossfade"`. -/
def crossfadeFlags (scenes : List CScene) : List Bool :=
  scenes.map (fun s => s.transition_in == some "crossfade")

/-- `video_composer.py` lines 369–384: absolute-timeline layout.  Each item
is an (actual clip duration, crossfade-in flag); each clip after the first
whose flag is set starts `0.5` s before the running end.  Returns each
clip's `(start, end)` on the absolute timeline. -/
def timelineGo (current : ℚ) (isFirst : Bool) :
    List (ℚ × Bool) → List (ℚ × ℚ)
  | [] => []
  | (d, cf) :: rest =>
    let s := match isFirst, cf with
      | false, true => current - 1/2
      | _, _ => current
    (s, s + d) :: timelineGo (s + d) false rest

/-- The absolute timeline starting at 0 (`current_time = 0.0`, line 370). -/
def timeline (items : List (ℚ × Bool)) : List (ℚ × ℚ) :=
  timelineGo 0 true items

/-- Duration of a `CompositeVideoClip`: the largest clip end time (the fold
base 0 is never the maximum for the nonempty positive-duration inputs the
composer produces). -/
def maxEnd (ps : List (ℚ × ℚ)) : ℚ := (ps.map Prod.snd).foldr max 0

/-- Which composition the compositor builds (lines 367–389). -/
inductive ComposeMode
  | composite
  | concat
  deriving DecidableEq

/-- `CompositeVideoClip` when any scene declares crossfade, otherwise
`concatenate_videoclips` (lines 367, 389). -/
def composeMode (scenes : List CScene) : ComposeMode :=
  if hasCrossfade scenes then .composite else .concat

/-- Duration of the composed video (before thumbnail overlay and audio),
given the actual loaded segment durations `ds`. -/
def composedDuration (scenes : List CScene) (ds : List ℚ) : ℚ :=
  match composeMode scenes with
  | .composite => maxEnd (timeline (ds.zip (crossfadeFlags scenes)))
  | .concat => ds.sum

/-- Relation between consecutive (placed clip, scene item) pairs on the
absolute timeline: a crossfading-in clip starts 0.5 s before its
predecessor's end, any other clip starts exactly at that end; every clip
ends its own duration after its start. -/
def TimelineStep (p q : (ℚ × ℚ) × (ℚ × Bool)) : Prop :=
  (q.2.2 = true → q.1.1 = p.1.2 - 1/2) ∧
  (q.2.2 = false → q.1.1 = p.1.2) ∧
  q.1.2 = q.1.1 + q.2.1

/-- The observable outcome of a `video_composer` call. -/
structure CompOut where
  /-- the caller's scene objects after the call (in-place mutations kept) -/
  scenesAfter : List CScene
  /-- output path, or the raised `Exception` message -/
  result : Except String String
  /-- the clip-handle event log of the whole call -/
  events : List HEvent
  /-- the written video carries the one-frame thumbnail overlay -/
  hasThumb : Bool
  /-- the written video carries the mixed audio track -/
  hasAudio : Bool
  /-- duration of the composed scene timeline, when composition was reached -/
  finalDuration : Option ℚ

/-- `video_composer.py` lines 462–491, the caught-and-logged music block:
`AudioFileClip` is opened (a handle) unless the constructor raises; any
later audio failure (`subclipped`, loop, volume, `with_audio`) is caught,
leaving the handle open but the video without audio.  Returns the handle
state, the opened audio handle (`"audio_clip" in locals()`), and whether
the final video carries the track. -/
def audioPhase (env : ComposerEnv) (st : HSt) :
    Option String → HSt × Option ℕ × Bool
  | none => (st, none, false)
  | some m =>
    if env.fileExists m = false then (st, none, false)
    else
      match env.audioDuration with
      | .error _ => (st, none, false)
      | .ok _ =>
        let st1h := acquireH st .audio
        (st1h.1, some st1h.2, env.audioOpsOk)

/-- `video_composer.py` lines 329–537: everything after the segment clips
were loaded — transitions (derived clips share their source's reader, no
new handle), composition, the caught-and-logged thumbnail overlay and music
mix, the final write, and the success/except cleanup passes. -/
def finishPhase (env : ComposerEnv) (st : HSt) (scenes : List CScene)
    (loaded : List ℕ) (ds : List ℚ) (music thumb : Option String) : CompOut :=
  if env.composeOk = false then
    let st2 := loaded.foldl releaseH st
    { scenesAfter := scenes, result := .error "Error composing video",
      events := st2.events, hasThumb := false, hasAudio := false,
      finalDuration := none }
  else
    let dur0 := composedDuration scenes ds
    let hasThumb :=
      match thumb with
      | some t => env.fileExists t && env.thumbOverlayOk
      | none => false
    let ap := audioPhase env st music
    if env.writeOk = false then
      let st2 := loaded.foldl releaseH ap.1
      let st3 := match ap.2.1 with | some h => releaseH st2 h | none => st2
      { scenesAfter := scenes, result := .error "Error composing video",
        events := st3.events, hasThumb := hasThumb, hasAudio := ap.2.2,
        finalDuration := some dur0 }
    else
      let st2 := loaded.foldl releaseH ap.1
      let st3 :=
        match music, ap.2.1 with
        | some _, some h => releaseH st2 h
        | _, _ => st2
      { scenesAfter := scenes, result := .ok "composed_video.mp4",
        events := st3.events, hasThumb := hasThumb, hasAudio := ap.2.2,
        finalDuration := some dur0 }

/-- `video_composer.py` lines 134–560, `video_composer`: input validation,
the extraction loop, the load loop, and `finishPhase`; any raise is wrapped
as `Error composing video` after the except-block cleanup pass over
`video_clips_loaded` (clips still only bound to the loop variable are not
in that list). -/
def video_composer (env : ComposerEnv) (script : CScript) (clips : List String)
    (music thumb : Option String) : CompOut :=
  let err0 : String → CompOut := fun e =>
    { scenesAfter := script.scenes, result := .error e, events := [],
      hasThumb := false, hasAudio := false, finalDuration := none }
  match clips with
  | [] => err0 "Error composing video: video_clips is required and cannot be empty"
  | _ :: _ =>
    if clips.any (fun p => !(env.fileExists p)) then
      err0 "Error composing video: Video clip not found"
    else if thumb.any (fun t => !(env.fileExists t)) then
      err0 "Error composing video: Thumbnail image not found"
    else
      match script.scenes with
      | [] => err0 "Error composing video: Script must contain at least one scene"
      | _ :: _ =>
        match extractLoop env clips HSt.init script.scenes with
        | (st1, scenes1, .error e) =>
          { scenesAfter := scenes1,
            result := .error ("Error composing video: " ++ e),
            events := st1.events, hasThumb := false, hasAudio := false,
            finalDuration := none }
        | (st1, scenes1, .ok cps) =>
          match loadLoop env st1 [] (cps.zip scenes1) with
          | (st2, loaded, .error e) =>
            let st3 := loaded.foldl releaseH st2
            { scenesAfter := scenes1,
              result := .error ("Error composing video: " ++ e),
              events := st3.events, hasThumb := false, hasAudio := false,
              finalDuration := none }
          | (st2, loaded, .ok ds) =>
            finishPhase env st2 scenes1 loaded ds music thumb

/-- An environment where every external call succeeds: sources probe as
10 s, extracted segments load as 2 s, audio as 3 s. -/
def envAllOk : ComposerEnv :=
  { fileExists := fun _ => true
    probeDuration := fun _ => .ok 10
    clipperOut := fun _ _ _ => .ok "clipped_seg"
    loadDuration := fun _ => .ok 2
    composeOk := true
    thumbOverlayOk := true
    audioDuration := .ok 3
    audioOpsOk := true
    writeOk := true }

/-- A scene whose JSON declares its `duration` as the *string* `"2"`. -/
def sceneStrDur : CScene :=
  { scene_id := some 1, source_video := some (.idx 0), start_time := some 0,
    end_time := some 2, duration := some (.str "2"),
    transition_in := none, transition_out := none }

/-- A well-typed scene referencing source index 5. -/
def sceneIdx5 : CScene :=
  { scene_id := some 1, source_video := some (.idx 5), start_time := some 0,
    end_time := some 2, duration := some (.num 2),
    transition_in := none, transition_out := none }

/-- A well-typed scene referencing source index 0. -/
def sceneIdx0 : CScene :=
  { scene_id := some 1, source_video := some (.idx 0), start_time := some 0,
    end_time := some 2, duration := some (.num 2),
    transition_in := none, transition_out := none }

/-- A scene declaring crossfade only on its *outgoing* transition. -/
def sceneOutCross : CScene :=
  { scene_id := some 1, source_video := some (.idx 0), start_time := some 0,
    end_time := some 2, duration := some (.num 2),
    transition_in := none, transition_out := some "crossfade" }

/-- A scene whose incoming transition is a plain fade. -/
def sceneInFade : CScene :=
  { scene_id := some 2, source_video := some (.idx 0), start_time := some 4,
    end_time := some 7, duration := some (.num 3),
    transition_in := some "fade", transition_out := none }

/-- A scene whose incoming transition is a crossfade. -/
def sceneInCross : CScene :=
  { scene_id := some 2, source_video := some (.idx 0), start_time := some 4,
    end_time := some 7, duration := some (.num 3),
    transition_in := some "crossfade", transition_out := none }

/-!
## Helper lemmas
-/

theorem pyRoundInt_close (x : ℚ) : |(pyRoundInt x : ℚ) - x| ≤ 1/2 := by
  have h0 : (⌊x⌋ : ℚ) ≤ x := Int.floor_le x
  have h1 : x < ⌊x⌋ + 1 := Int.lt_floor_add_one x
  simp only [pyRoundInt]
  split_ifs with hr hr2 he <;> rw [abs_le] <;> push_cast <;>
    constructor <;> linarith

theorem round2_close (q : ℚ) : |round2 q - q| ≤ 1/200 := by
  have h := pyRoundInt_close (100 * q)
  rw [abs_le] at h ⊢
  unfold round2
  constructor <;> [linarith [h.1]; linarith [h.2]]

theorem clampTimes_pre (start e0 D : ℚ) (hD : 0 < D) (hs : 0 ≤ start) :
    0 ≤ (clampTimes start e0 D).1 ∧
    (clampTimes start e0 D).1 < (clampTimes start e0 D).2 ∧
    (clampTimes start e0 D).1 < D := by
  have hmin : 0 < min 2 D := lt_min (by norm_num) hD
  simp only [clampTimes]
  split_ifs with h
  · refine ⟨le_max_left _ _, ?_, ?_⟩ <;>
      · simp only [max_lt_iff]
        exact ⟨hD, by linarith⟩
  · refine ⟨le_max_left _ _, ?_, ?_⟩
    · exact lt_of_lt_of_le (by linarith) (le_max_left _ _)
    · simp only [max_lt_iff]
      exact ⟨hD, lt_of_le_of_lt (min_le_right _ _) (by linarith)⟩

theorem clampTimes_bounds (start e0 D : ℚ) (hD : 1/10 ≤ D) (hs : 0 ≤ start) :
    0 ≤ (clampTimes start e0 D).1 ∧
    (clampTimes start e0 D).1 < (clampTimes start e0 D).2 ∧
    (clampTimes start e0 D).2 ≤ D := by
  have hD0 : 0 < D := by linarith
  obtain ⟨h1, h2, h3⟩ := clampTimes_pre start e0 D hD0 hs
  refine ⟨h1, h2, ?_⟩
  revert h1 h2 h3
  simp only [clampTimes]
  split_ifs with h
  · intro _ _ _
    exact le_refl D
  · intro _ _ _
    have hsD : max 0 (min start (D - 1/10)) ≤ D - 1/10 :=
      max_le (by linarith) (min_le_right _ _)
    exact max_le (by linarith) (min_le_right _ _)



theorem maxEnd_cons (p : ℚ × ℚ) (l : List (ℚ × ℚ)) :
    maxEnd (p :: l) = max p.2 (maxEnd l) := by
  simp [maxEnd]

theorem timelineGo_chain (items : List (ℚ × Bool)) :
    ∀ (c : ℚ) (first : Bool),
      List.Chain' TimelineStep ((timelineGo c first items).zip items) := by
  induction items with
  | nil => intro c first; simp [timelineGo]
  | cons x rest ih =>
    intro c first
    rcases x with ⟨d, cf⟩
    cases rest with
    | nil => simp [timelineGo, List.Chain']
    | cons y rest2 =>
      rcases y with ⟨d2, cf2⟩
      simp only [timelineGo, List.zip_cons_cons]
      rw [List.chain'_cons]
      constructor
      · cases cf2 <;> simp [TimelineStep]
      · exact ih _ false

theorem timelineGo_maxEnd_le (items : List (ℚ × Bool)) :
    ∀ c : ℚ, (∀ x ∈ items, 0 ≤ x.1) →
      maxEnd (timelineGo c false items) ≤ max 0 (c + (items.map Prod.fst).sum) := by
  induction items with
  | nil =>
    intro c h
    simp [timelineGo, maxEnd]
  | cons x rest ih =>
    intro c h
    rcases x with ⟨d, cf⟩
    have hd : 0 ≤ d := h (d, cf) (by simp)
    have hrest : ∀ x ∈ rest, 0 ≤ x.1 := fun x hx => h x (by simp [hx])
    have hsum : 0 ≤ (rest.map Prod.fst).sum := by
      apply List.sum_nonneg
      intro q hq
      obtain ⟨x, hx, rfl⟩ := List.mem_map.mp hq
      exact hrest x hx
    have key : ∀ s : ℚ, s ≤ c →
        max (s + d) (maxEnd (timelineGo (s + d) false rest)) ≤
          max 0 (c + (d + (rest.map Prod.fst).sum)) := by
      intro s hs
      refine max_le (le_max_of_le_right (by linarith)) ?_
      refine le_trans (ih (s + d) hrest) ?_
      exact max_le (le_max_left _ _) (le_max_of_le_right (by linarith))
    cases hcf : cf <;>
      · simp only [timelineGo, List.map_cons, List.sum_cons]
        rw [maxEnd_cons]
        first
          | exact key c le_rfl
          | exact key (c - 1/2) (by linarith)

theorem timelineGo_maxEnd_lt (items : List (ℚ × Bool)) :
    ∀ c : ℚ, 0 ≤ c → (∀ x ∈ items, 0 < x.1) →
      (∃ x ∈ items, x.2 = true) →
      maxEnd (timelineGo c false items) < c + (items.map Prod.fst).sum := by
  induction items with
  | nil =>
    intro c _ _ hex
    simp at hex
  | cons x rest ih =>
    intro c hc hpos hex
    rcases x with ⟨d, cf⟩
    have hd : 0 < d := hpos (d, cf) (by simp)
    have hrest : ∀ x ∈ rest, 0 < x.1 := fun x hx => hpos x (by simp [hx])
    have hrest0 : ∀ x ∈ rest, 0 ≤ x.1 := fun x hx => le_of_lt (hrest x hx)
    have hsum : 0 ≤ (rest.map Prod.fst).sum := by
      apply List.sum_nonneg
      intro q hq
      obtain ⟨x, hx, rfl⟩ := List.mem_map.mp hq
      exact hrest0 x hx
    cases hcf : cf
    · -- no shift here; the crossfade is in the tail
      have hexr : ∃ x ∈ rest, x.2 = true := by
        rcases hex with ⟨x, hx, hx2⟩
        rcases List.mem_cons.mp hx with rfl | hx3
        · rw [hcf] at hx2; cases hx2
        · exact ⟨x, hx3, hx2⟩
      have hne : rest ≠ [] := by
        rcases hexr with ⟨x, hx, -⟩
        exact List.ne_nil_of_mem hx
      have hsumpos : 0 < (rest.map Prod.fst).sum := by
        apply List.sum_pos
        · intro q hq
          obtain ⟨x, hx, rfl⟩ := List.mem_map.mp hq
          exact hrest x hx
        · simpa using hne
      have h1 := ih (c + d) (by linarith) hrest hexr
      simp only [timelineGo, List.map_cons, List.sum_cons]
      rw [maxEnd_cons]
      dsimp only
      exact max_lt (by linarith) (by linarith)
    · -- this clip crossfades in: shift by 1/2
      have h1 := timelineGo_maxEnd_le rest (c - 1/2 + d) hrest0
      simp only [timelineGo, List.map_cons, List.sum_cons]
      rw [maxEnd_cons]
      dsimp only
      refine max_lt (by linarith) (lt_of_le_of_lt h1 ?_)
      exact max_lt (by linarith) (by linarith)

/-!
## Claims

Each claim of the specification gets one theorem below (plus a witness when
the theorem has hypotheses, and a counterexample when the claim fails on
the code as stated).
-/

/-- **C3** (amended: requires `D ≥ 0.1`).  For every Scene with
`start_time ≥ 0` resolved against a real source duration `D ≥ 0.1`, for
every combination of explicit, duration-derived, or missing `end_time`,
the clamped interval satisfies `0 ≤ start < end ≤ D`.  (For `0 < D < 0.1`
with `start_time < D`, the code forces `end = start + 0.1 > D`.) -/
theorem scene_time_clamp_invariant (start D : ℚ) (endT durT : Option ℚ)
    (hs : 0 ≤ start) (hD : 1/10 ≤ D) :
    0 ≤ (clampTimes start (resolveEndTime start endT durT D) D).1 ∧
    (clampTimes start (resolveEndTime start endT durT D) D).1 <
      (clampTimes start (resolveEndTime start endT durT D) D).2 ∧
    (clampTimes start (resolveEndTime start endT durT D) D).2 ≤ D :=
  clampTimes_bounds start _ D hD hs

/-- Witness for C3: an explicit-`end_time` scene against a 10 s clip. -/
theorem scene_time_clamp_invariant_witness :
    0 ≤ (clampTimes 0 (resolveEndTime 0 (some 5) none 10) 10).1 ∧
    (clampTimes 0 (resolveEndTime 0 (some 5) none 10) 10).1 <
      (clampTimes 0 (resolveEndTime 0 (some 5) none 10) 10).2 ∧
    (clampTimes 0 (resolveEndTime 0 (some 5) none 10) 10).2 ≤ 10 :=
  scene_time_clamp_invariant 0 10 (some 5) none (le_refl 0) (by norm_num)

/-- Counterexample to C3 as stated: against a source of real duration
`D = 0.05 > 0`, a scene with `start_time = 0`, `end_time = 0.05` resolves
to `end = 0.1 > D`, violating `end ≤ D`. -/
theorem scene_time_clamp_invariant_counterexample :
    ¬ ((clampTimes 0 (resolveEndTime 0 (some (1/20)) none (1/20)) (1/20)).2 ≤ 1/20) := by
  norm_num [clampTimes, resolveEndTime]

/-- **C6** (amended).  For `0 ≤ start < end`: a Segment Extractor call with
`start` below the real source duration `D` never fails and clamps `end` to
`D`; but a direct call with `start ≥ D` raises — the relocation of the
range to the last `min 2 D` seconds is performed by the Timeline
Compositor's clamp *before* it invokes the extractor, so the
compositor-issued extraction (clamp, then extractor) always produces a
segment. -/
theorem segment_extractor_overrun_recovery (D start endT : ℚ)
    (endO durO : Option ℚ) (hD : 0 < D) (hs : 0 ≤ start) :
    (start < D → start < endT → video_clipper true D start endT = .ok (start, min endT D)) ∧
    (start < endT → D ≤ start →
      video_clipper true D start endT = .error "Start time exceeds video duration") ∧
    (D ≤ start →
      clampTimes start (resolveEndTime start endO durO D) D = (max 0 (D - min 2 D), D)) ∧
    (∃ seg, video_clipper true D
        (clampTimes start (resolveEndTime start endO durO D) D).1
        (clampTimes start (resolveEndTime start endO durO D) D).2 = .ok seg) := by
  obtain ⟨h1, h2, h3⟩ := clampTimes_pre start (resolveEndTime start endO durO D) D hD hs
  refine ⟨?_, ?_, ?_, ?_⟩
  · intro hlt hse
    simp only [video_clipper, if_neg (by simp : ¬ (true = false)),
      if_neg (not_lt.mpr hs), if_neg (not_le.mpr hse), if_neg (not_le.mpr hlt)]
    rcases le_or_lt endT D with h | h
    · rw [if_neg (not_lt.mpr h), min_eq_left h]
    · rw [if_pos h, min_eq_right h.le]
  · intro hse hge
    simp only [video_clipper, if_neg (by simp : ¬ (true = false)),
      if_neg (not_lt.mpr hs), if_neg (not_le.mpr hse), if_pos hge]
  · intro hge
    simp only [clampTimes, if_pos hge]
  · simp only [video_clipper, if_neg (by simp : ¬ (true = false)),
      if_neg (not_lt.mpr h1), if_neg (not_le.mpr h2), if_neg (not_le.mpr h3)]
    exact ⟨_, rfl⟩

/-- Witness for C6: a 5 s source; a direct in-range call with overrunning
`end`, and a compositor-clamped call with `start = 10 ≥ D`. -/
theorem segment_extractor_overrun_recovery_witness :
    (10 < (5:ℚ) → (10:ℚ) < 12 → video_clipper true 5 10 12 = .ok (10, min 12 5)) ∧
    ((10:ℚ) < 12 → (5:ℚ) ≤ 10 →
      video_clipper true 5 10 12 = .error "Start time exceeds video duration") ∧
    ((5:ℚ) ≤ 10 →
      clampTimes 10 (resolveEndTime 10 (some 12) none 5) 5 = (max 0 (5 - min 2 5), 5)) ∧
    (∃ seg, video_clipper true 5
        (clampTimes 10 (resolveEndTime 10 (some 12) none 5) 5).1
        (clampTimes 10 (resolveEndTime 10 (some 12) none 5) 5).2 = .ok seg) :=
  segment_extractor_overrun_recovery 5 10 12 (some 12) none (by norm_num) (by norm_num)

/-- Counterexample to C6 as stated: the Segment Extractor itself, invoked
with `0 ≤ start = 10 < end = 12` on a source whose real duration is 5,
raises instead of recovering — no segment artifact is produced. -/
theorem segment_extractor_overrun_recovery_counterexample :
    video_clipper true 5 10 12 = .error "Start time exceeds video duration" := by
  norm_num [video_clipper]

/-- **C7** (amended: the returned `thumbnail_timeframe` is
`round(duration/2, 2)`, not exactly `duration/2`; it is `0` when the
probed duration is `0`).  With no API credential the summarizer returns,
for every probe-able input, the well-typed metadata summary: an
analysis-skipped `summary`, `mood_tags = []` (distinct from the
`["general"]` default of the analyzed path), the probed `frame_count`,
the probed duration rounded to 2 decimals, and a mid-video
`thumbnail_timeframe` within `1/200` of `duration/2`. -/
theorem summarizer_no_credential_degrades (p : ProbeResult) :
    (video_summarizer_noKey p).mood_tags = [] ∧
    (video_summarizer_noKey p).mood_tags ≠ ["general"] ∧
    (video_summarizer_noKey p).summary =
      "Video analysis requires GOOGLE_API_KEY environment variable" ∧
    (video_summarizer_noKey p).frame_count = p.frame_count ∧
    (video_summarizer_noKey p).duration = round2 (probedDuration p) ∧
    (video_summarizer_noKey p).thumbnail_timeframe =
      (if 0 < probedDuration p then round2 (probedDuration p / 2) else 0) ∧
    |(video_summarizer_noKey p).thumbnail_timeframe - probedDuration p / 2| ≤ 1/200 := by
  refine ⟨rfl, by simp [video_summarizer_noKey], rfl, rfl, rfl, rfl, ?_⟩
  have hd : 0 ≤ probedDuration p := by
    unfold probedDuration
    split_ifs with h
    · positivity
    · exact le_refl 0
  show |(if 0 < probedDuration p then round2 (probedDuration p / 2) else 0)
        - probedDuration p / 2| ≤ 1/200
  split_ifs with h
  · exact round2_close _
  · have : probedDuration p = 0 := le_antisymm (not_lt.mp h) hd
    rw [this]
    norm_num

/-- Counterexample to C7 as stated: a probe-able video with 1 frame at
8 fps has probed duration `1/8`; the no-credential summary reports
`thumbnail_timeframe = round(1/16, 2) = 0.06 ≠ 1/16 = duration/2`. -/
theorem summarizer_no_credential_counterexample :
    (video_summarizer_noKey ⟨8, 1, 64, 48⟩).thumbnail_timeframe ≠
      probedDuration ⟨8, 1, 64, 48⟩ / 2 := by
  norm_num [video_summarizer_noKey, probedDuration, round2, pyRoundInt]

/-- **C9** (amended: no clamping).  Under the custom-timestamp policy the
Frame Selector *validates* rather than clamps: an in-range timestamp
`0 ≤ t ≤ duration` decodes a single frame at index `int(t·fps)` with no
quality-scored sampling, while a timestamp outside `[0, duration]` makes
the call raise. -/
theorem frame_selector_custom_policy (fps t : ℚ) (frames : ℕ)
    (hfps : 0 < fps) (hdur : (frames : ℚ) / fps ≠ 0) :
    (0 ≤ t → t ≤ (frames : ℚ) / fps →
      frame_extractor true fps frames "custom" (some t) =
        .ok (.singleFrame (pyInt (t * fps)))) ∧
    (t < 0 ∨ (frames : ℚ) / fps < t →
      frame_extractor true fps frames "custom" (some t) =
        .error "custom_timestamp must be between 0 and duration") := by
  constructor
  · intro h0 h1
    simp [frame_extractor, hfps, hdur, not_lt.mpr h0, not_lt.mpr h1]
  · intro h
    simp [frame_extractor, hfps, hdur, h]

/-- Witness for C9: a 10 s video (100 frames at 10 fps), in-range
timestamp 5 and out-of-range timestamp handling from the same statement. -/
theorem frame_selector_custom_policy_witness :
    ((0:ℚ) ≤ 5 → (5:ℚ) ≤ (100 : ℚ) / 10 →
      frame_extractor true 10 100 "custom" (some 5) =
        .ok (.singleFrame (pyInt (5 * 10)))) ∧
    ((5:ℚ) < 0 ∨ (100 : ℚ) / 10 < 5 →
      frame_extractor true 10 100 "custom" (some 5) =
        .error "custom_timestamp must be between 0 and duration") :=
  frame_selector_custom_policy 10 5 100 (by norm_num) (by norm_num)

/-- Counterexample to C9 as stated: on a 10 s video (100 frames at
10 fps) a recommended timestamp of 12 s is not clamped into the video —
the selector raises instead of decoding a frame. -/
theorem frame_selector_custom_policy_counterexample :
    frame_extractor true 10 100 "custom" (some 12) =
      .error "custom_timestamp must be between 0 and duration" := by
  norm_num [frame_extractor]

theorem rescaleScene_ok (scale : ℚ) (s : GScene)
    (hwf : s.start_time.isSome → s.end_time.isSome → s.duration.isSome) :
    ∃ s2, rescaleScene scale s = .ok s2 ∧ RescaledScene scale s s2 := by
  rcases s with ⟨i, v, st, et, du, de, t1, t2⟩
  cases du <;> cases st <;> cases et <;>
    simp_all [rescaleScene, RescaledScene]

theorem rescaleList_ok (scale : ℚ) (scenes : List GScene)
    (hwf : ∀ s ∈ scenes, s.start_time.isSome → s.end_time.isSome → s.duration.isSome) :
    ∃ scenes2, rescaleList scale scenes = .ok scenes2 ∧
      List.Forall₂ (RescaledScene scale) scenes scenes2 := by
  induction scenes with
  | nil => exact ⟨[], rfl, .nil⟩
  | cons s rest ih =>
    obtain ⟨s2, hs2, hprops⟩ := rescaleScene_ok scale s (hwf s (by simp))
    obtain ⟨rest2, hrest, hrel⟩ := ih (fun x hx => hwf x (by simp [hx]))
    refine ⟨s2 :: rest2, ?_, .cons hprops hrel⟩
    simp [rescaleList, hs2, hrest]

theorem rescaled_dur_close (scale : ℚ) (s s2 : GScene)
    (h : RescaledScene scale s s2) :
    |sceneDur s2 - scale * sceneDur s| ≤ 1/200 := by
  obtain ⟨hdur, -, -⟩ := h
  rcases hsd : s.duration with - | d
  · rw [hsd] at hdur
    simp only [Option.map_none'] at hdur
    simp [sceneDur, hdur, hsd]
  · rw [hsd] at hdur
    simp only [Option.map_some'] at hdur
    simp only [sceneDur, hdur, hsd, Option.getD_some]
    rw [mul_comm]
    exact round2_close _

theorem forall2_rescaled_sum (scale : ℚ) (scenes scenes2 : List GScene)
    (h : List.Forall₂ (RescaledScene scale) scenes scenes2) :
    |totalSceneDuration scenes2 - scale * totalSceneDuration scenes| ≤
      scenes.length * (1/200) := by
  induction h with
  | nil => simp [totalSceneDuration]
  | @cons a b l1 l2 hr hrest ih =>
    have h1 := rescaled_dur_close scale a b hr
    simp only [totalSceneDuration, List.map_cons, List.sum_cons,
      List.length_cons] at ih ⊢
    have key : |sceneDur b + (List.map sceneDur l2).sum
        - scale * (sceneDur a + (List.map sceneDur l1).sum)|
        ≤ |sceneDur b - scale * sceneDur a|
          + |(List.map sceneDur l2).sum - scale * (List.map sceneDur l1).sum| := by
      have h2 := abs_add (sceneDur b - scale * sceneDur a)
        ((List.map sceneDur l2).sum - scale * (List.map sceneDur l1).sum)
      have h3 : sceneDur b + (List.map sceneDur l2).sum
          - scale * (sceneDur a + (List.map sceneDur l1).sum)
          = (sceneDur b - scale * sceneDur a)
            + ((List.map sceneDur l2).sum - scale * (List.map sceneDur l1).sum) := by
        ring
      rw [h3]
      exact h2
    calc |sceneDur b + (List.map sceneDur l2).sum
        - scale * (sceneDur a + (List.map sceneDur l1).sum)| ≤ _ := key
      _ ≤ 1/200 + (l1.length : ℚ) * (1/200) := add_le_add h1 ih
      _ = ((l1.length + 1 : ℕ) : ℚ) * (1/200) := by push_cast; ring

/-- **C4** (amended: the recomputed `end_time` is
`round(start_time + scaled duration, 2)`, which equals
`start_time + scaled duration` only when that sum has at most 2 decimal
places; scenes carrying both time keys must also carry a `duration` key,
else the pass raises `KeyError`).  For every script whose scene durations
sum to `S > 0` with `|S - target| > 5`, the rescale pass multiplies each
scene's `duration` by `target/S` (2-decimal rounded), recomputes its
`end_time` from the scaled duration, sets `total_duration` to `target`,
and afterwards the scene durations sum to `target` within the rounding
tolerance `n/200` (`n` = number of scenes). -/
theorem script_planner_rescale (target td : ℚ) (scenes : List GScene)
    (hpos : 0 < totalSceneDuration scenes)
    (hdrift : 5 < |totalSceneDuration scenes - target|)
    (hwf : ∀ s ∈ scenes, s.start_time.isSome → s.end_time.isSome → s.duration.isSome) :
    ∃ scenes2, adjustDurations target td scenes = .ok (target, scenes2) ∧
      List.Forall₂ (RescaledScene (target / totalSceneDuration scenes)) scenes scenes2 ∧
      |totalSceneDuration scenes2 - target| ≤ scenes.length * (1/200) := by
  obtain ⟨scenes2, hmap, hrel⟩ :=
    rescaleList_ok (target / totalSceneDuration scenes) scenes hwf
  refine ⟨scenes2, ?_, hrel, ?_⟩
  · simp only [adjustDurations, if_pos hdrift, if_pos hpos, hmap]
  · have hS : totalSceneDuration scenes ≠ 0 := ne_of_gt hpos
    have := forall2_rescaled_sum (target / totalSceneDuration scenes) scenes scenes2 hrel
    rwa [div_mul_cancel₀ target hS] at this

/-- Witness for C4: one scene of duration 40 s against `target = 30`
(drift 10 > 5): duration scaled to 30, `end_time` recomputed,
`total_duration` set to 30. -/
theorem script_planner_rescale_witness :
    ∃ scenes2,
      adjustDurations 30 40
        [{ scene_id := some 1, source_video := some 0, start_time := some 0,
           end_time := some 40, duration := some 40, description := none,
           transition_in := none, transition_out := none }] = .ok (30, scenes2) ∧
      List.Forall₂
        (RescaledScene (30 / totalSceneDuration
          [{ scene_id := some 1, source_video := some 0, start_time := some 0,
             end_time := some 40, duration := some 40, description := none,
             transition_in := none, transition_out := none }]))
        [{ scene_id := some 1, source_video := some 0, start_time := some 0,
           end_time := some 40, duration := some 40, description := none,
           transition_in := none, transition_out := none }] scenes2 ∧
      |totalSceneDuration scenes2 - 30| ≤
        ([{ scene_id := some 1, source_video := some 0, start_time := some 0,
            end_time := some 40, duration := some 40, description := none,
            transition_in := none, transition_out := none }] :
          List GScene).length * (1/200) :=
  script_planner_rescale 30 40 _
    (by norm_num [totalSceneDuration, sceneDur])
    (by norm_num [totalSceneDuration, sceneDur])
    (by intro s hs h1 h2; simp only [List.mem_singleton] at hs; subst hs; rfl)

/-- Counterexample to C4 as stated: a scene with `start_time = 0.001` and
`duration = 40` against `target = 30` (sum 40, drift 10 > 5): the scaled
duration is 30, but the recomputed `end_time` is
`round(0.001 + 30, 2) = 30`, not exactly `start_time + duration = 30.001`. -/
theorem script_planner_rescale_counterexample :
    adjustDurations 30 40
        [{ scene_id := some 1, source_video := some 0, start_time := some (1/1000),
           end_time := some (40001/1000), duration := some 40, description := none,
           transition_in := none, transition_out := none }] =
      .ok (30,
        [{ scene_id := some 1, source_video := some 0, start_time := some (1/1000),
           end_time := some 30, duration := some 30, description := none,
           transition_in := none, transition_out := none }]) ∧
    (1/1000 : ℚ) + 30 ≠ 30 := by
  constructor
  · norm_num [adjustDurations, totalSceneDuration, sceneDur, rescaleList,
      rescaleScene, round2, pyRoundInt]
  · norm_num

/-- **C5** (amended: the duration strictly drops only when some scene at
position `i > 0` declares `transition_in = "crossfade"`; a crossfade
declared only as a `transition_out`, or on the first scene, still selects
the layered composition but produces no overlap, so the duration equals
the plain sum).  When some scene after the first crossfades in, the
compositor lays the clips on an absolute timeline (layered
`CompositeVideoClip`, not concatenation) where each crossfading-in clip
starts exactly 0.5 s before its predecessor's end, and (for positive clip
durations) the composed duration is strictly less than the sum of the clip
durations. -/
theorem crossfade_overlap_composition (scenes : List CScene) (ds : List ℚ)
    (hlen : ds.length = scenes.length)
    (hpos : ∀ d ∈ ds, 0 < d)
    (hshift : ∃ x ∈ (ds.zip (crossfadeFlags scenes)).drop 1, x.2 = true) :
    composeMode scenes = .composite ∧
    List.Chain' TimelineStep
      ((timeline (ds.zip (crossfadeFlags scenes))).zip (ds.zip (crossfadeFlags scenes))) ∧
    composedDuration scenes ds < ds.sum := by
  have hflagslen : (crossfadeFlags scenes).length = scenes.length := by
    simp [crossfadeFlags]
  have hcf : hasCrossfade scenes = true := by
    rcases hshift with ⟨x, hx, hx2⟩
    rcases x with ⟨a, b⟩
    have hxz : (a, b) ∈ ds.zip (crossfadeFlags scenes) := List.mem_of_mem_drop hx
    have hb : b ∈ crossfadeFlags scenes := (List.of_mem_zip hxz).2
    simp only at hx2
    rw [hx2] at hb
    simp only [crossfadeFlags, List.mem_map] at hb
    obtain ⟨s, hs, hseq⟩ := hb
    simp only [hasCrossfade, List.any_eq_true]
    refine ⟨s, hs, ?_⟩
    rw [hseq]
    simp
  refine ⟨by simp [composeMode, hcf], timelineGo_chain _ 0 true, ?_⟩
  have hposx : ∀ x ∈ ds.zip (crossfadeFlags scenes), 0 < x.1 := by
    intro x hx
    rcases x with ⟨a, b⟩
    exact hpos a (List.of_mem_zip hx).1
  have hmapfst : (ds.zip (crossfadeFlags scenes)).map Prod.fst = ds :=
    List.map_fst_zip ds _ (by rw [hflagslen, hlen])
  rcases hitems : ds.zip (crossfadeFlags scenes) with - | ⟨⟨d0, cf0⟩, tail⟩
  · rw [hitems] at hshift
    simp at hshift
  · rw [hitems] at hshift hposx hmapfst
    simp only [List.drop_succ_cons, List.drop_zero] at hshift
    have hd0 : 0 < d0 := hposx (d0, cf0) (by simp)
    have htailpos : ∀ x ∈ tail, 0 < x.1 := fun x hx => hposx x (by simp [hx])
    have htailne : tail ≠ [] := by
      rcases hshift with ⟨x, hx, -⟩
      exact List.ne_nil_of_mem hx
    have hsumpos : 0 < (tail.map Prod.fst).sum := by
      apply List.sum_pos
      · intro q hq
        obtain ⟨x, hx, rfl⟩ := List.mem_map.mp hq
        exact htailpos x hx
      · simpa using htailne
    have hlt := timelineGo_maxEnd_lt tail d0 (le_of_lt hd0) htailpos hshift
    have hsum_eq : ds.sum = d0 + (tail.map Prod.fst).sum := by
      rw [← hmapfst]
      simp
    simp only [composedDuration, composeMode, hcf, if_pos, timeline, hitems,
      timelineGo]
    rw [maxEnd_cons]
    dsimp only
    rw [hsum_eq]
    have hzero : (0 : ℚ) + d0 = d0 := by ring
    rw [hzero]
    exact max_lt (by linarith) hlt

/-- Witness for C5: two clips of 2 s and 3 s, the second crossfading in. -/
theorem crossfade_overlap_composition_witness :
    composeMode [sceneIdx0, sceneInCross] = .composite ∧
    List.Chain' TimelineStep
      ((timeline (([2, 3] : List ℚ).zip (crossfadeFlags [sceneIdx0, sceneInCross]))).zip
        (([2, 3] : List ℚ).zip (crossfadeFlags [sceneIdx0, sceneInCross]))) ∧
    composedDuration [sceneIdx0, sceneInCross] [2, 3] < ([2, 3] : List ℚ).sum :=
  crossfade_overlap_composition [sceneIdx0, sceneInCross] [2, 3] (by simp)
    (by norm_num) (by simp [crossfadeFlags, sceneIdx0, sceneInCross])

/-- Counterexample to C5 as stated: a script that *declares* crossfade —
but only as the first scene's `transition_out` — composes in layered mode,
yet no start is shifted and the final duration *equals* the plain sum of
the clip durations (2 s + 3 s), not strictly less. -/
theorem crossfade_overlap_composition_counterexample :
    hasCrossfade [sceneOutCross, sceneInFade] = true ∧
    composedDuration [sceneOutCross, sceneInFade] [2, 3] = ([2, 3] : List ℚ).sum ∧
    ¬ (composedDuration [sceneOutCross, sceneInFade] [2, 3] < ([2, 3] : List ℚ).sum) := by
  have hflags : crossfadeFlags [sceneOutCross, sceneInFade] = [false, false] := by
    simp [crossfadeFlags, sceneOutCross, sceneInFade]
  have hcf : hasCrossfade [sceneOutCross, sceneInFade] = true := by
    simp [hasCrossfade, sceneOutCross, sceneInFade]
  have hmode : composeMode [sceneOutCross, sceneInFade] = .composite := by
    simp [composeMode, hcf]
  have heq : composedDuration [sceneOutCross, sceneInFade] [2, 3] = ([2, 3] : List ℚ).sum := by
    simp [composedDuration, hmode, crossfadeFlags, sceneOutCross, sceneInFade,
      timeline, timelineGo, maxEnd]
    split <;> norm_num
  refine ⟨hcf, heq, ?_⟩
  rw [heq]
  exact lt_irrefl _


/-- **C1** (amended: the fallback applies exactly when the API credential
is absent or the collaborator's output is malformed JSON; any *other*
failure — e.g. the collaborator call itself raising, or the parsed script
failing validation — is re-raised, not absorbed).  For every non-empty
summary list and `target_duration > 0`, in the two fallback cases the
planner returns (never raises) the deterministic single-scene script built
from the first summary, with its duration clamped to `target_duration`. -/
theorem script_planner_fallback (env : GenEnv) (s0 : VSummary)
    (rest : List VSummary) (target : ℚ) (ht : 0 < target)
    (h : env.apiKey = false ∨ env.outcome = .returns none) :
    video_script_generator env (s0 :: rest) target = .ok (fallbackScript s0 target) ∧
    (fallbackScript s0 target).scenes.length = 1 ∧
    (fallbackScript s0 target).total_duration = min (s0.duration.getD target) target ∧
    (fallbackScript s0 target).total_duration ≤ target := by
  refine ⟨?_, rfl, rfl, min_le_right _ _⟩
  rcases h with h | h
  · simp [video_script_generator, not_le.mpr ht, h]
  · cases hk : env.apiKey
    · simp [video_script_generator, not_le.mpr ht, hk]
    · simp [video_script_generator, not_le.mpr ht, hk, h]

/-- Witness for C1: no credential, one summary, `target = 30`. -/
theorem script_planner_fallback_witness :
    video_script_generator ⟨false, .raises⟩ [sampleSummary] 30 =
      .ok (fallbackScript sampleSummary 30) ∧
    (fallbackScript sampleSummary 30).scenes.length = 1 ∧
    (fallbackScript sampleSummary 30).total_duration =
      min (sampleSummary.duration.getD 30) 30 ∧
    (fallbackScript sampleSummary 30).total_duration ≤ 30 :=
  script_planner_fallback ⟨false, .raises⟩ sampleSummary [] 30 (by norm_num)
    (Or.inl rfl)

/-- Counterexample to C1 as stated: with a credential configured and the
collaborator call itself raising (a failure that is neither a missing
credential nor malformed JSON), the planner re-raises instead of returning
the fallback script. -/
theorem script_planner_fallback_counterexample :
    video_script_generator ⟨true, .raises⟩ [sampleSummary] 30 =
      .error "Error generating video script" := by
  norm_num [video_script_generator]

theorem mutateScene_id (clips : List String) (s : CScene)
    (hin : ∀ i, s.source_video = some (SrcRef.idx i) → 0 ≤ i ∧ i < (clips.length : ℤ)) :
    mutateScene clips s = s := by
  rcases hsv : s.source_video with - | r
  · simp [mutateScene, hsv]
  · rcases r with i | nm
    · obtain ⟨h0, h1⟩ := hin i hsv
      simp [mutateScene, hsv, not_lt.mpr h0, not_le.mpr h1]
    · simp [mutateScene, hsv]

theorem extractLoop_scenesAfter (env : ComposerEnv) (clips : List String) :
    ∀ (scenes : List CScene) (st : HSt),
      (∀ s ∈ scenes, ∀ i, s.source_video = some (SrcRef.idx i) →
        0 ≤ i ∧ i < (clips.length : ℤ)) →
      (extractLoop env clips st scenes).2.1 = scenes := by
  intro scenes
  induction scenes with
  | nil =>
    intro st hin
    simp [extractLoop]
  | cons s rest ih =>
    intro st hin
    have hs : mutateScene clips s = s := mutateScene_id clips s (hin s (by simp))
    simp only [extractLoop]
    rcases hx : extractScene env clips st s with ⟨st1, s1, r⟩
    have h21 : s1 = s := by
      have h0 : (extractScene env clips st s).2.1 = mutateScene clips s := rfl
      rw [hx] at h0
      simp only at h0
      rw [h0, hs]
    subst h21
    cases r with
    | error e => simp [hx]
    | ok cp =>
      rcases hy : extractLoop env clips st1 rest with ⟨st2, rest2, res⟩
      have hr2 : rest2 = rest := by
        have hihr := ih st1 (fun x hx2 => hin x (by simp [hx2]))
        rw [hy] at hihr
        simpa using hihr
      subst hr2
      simp [hx, hy]

theorem finishPhase_scenesAfter (env : ComposerEnv) (st : HSt)
    (scenes : List CScene) (loaded : List ℕ) (ds : List ℚ)
    (music thumb : Option String) :
    (finishPhase env st scenes loaded ds music thumb).scenesAfter = scenes := by
  unfold finishPhase
  split_ifs <;> rfl

/-- **C8** (amended: read-only holds only when every integer
`source_video` reference is already within `[0, len(video_clips))`, or the
script is passed as a JSON *string*; a dict script carrying an
out-of-range integer reference is mutated in place — the compositor clamps
the index and writes it back into the caller's scene).  Under in-range
references, a `video_composer` call leaves the caller's scenes unchanged,
whether it returns an artifact or raises. -/
theorem composer_script_readonly (env : ComposerEnv) (script : CScript)
    (clips : List String) (music thumb : Option String)
    (hin : ∀ s ∈ script.scenes, ∀ i, s.source_video = some (SrcRef.idx i) →
      0 ≤ i ∧ i < (clips.length : ℤ)) :
    (video_composer env script clips music thumb).scenesAfter = script.scenes := by
  unfold video_composer
  rcases clips with - | ⟨c, cs⟩
  · rfl
  · split_ifs with h1 h2
    · rfl
    · rfl
    · rcases hsc : script.scenes with - | ⟨s, ss⟩
      · rfl
      · rw [hsc] at hin
        rcases hx : extractLoop env (c :: cs) HSt.init (s :: ss) with ⟨st1, scenes1, res⟩
        have hs1 : scenes1 = s :: ss := by
          have hres := extractLoop_scenesAfter env (c :: cs) (s :: ss) HSt.init hin
          rw [hx] at hres
          simpa using hres
        subst hs1
        cases res with
        | error e => simp [hx]
        | ok cps =>
          rcases hy : loadLoop env st1 [] (cps.zip (s :: ss)) with ⟨st2, loaded, res2⟩
          cases res2 with
          | error e => simp [hx, hy]
          | ok ds => simp [hx, hy, finishPhase_scenesAfter]

/-- Witness for C8: an in-range script is returned unchanged. -/
theorem composer_script_readonly_witness :
    (video_composer envAllOk ⟨some 2, [sceneIdx0], none⟩ ["a.mp4"] none none).scenesAfter
      = (⟨some 2, [sceneIdx0], none⟩ : CScript).scenes :=
  composer_script_readonly envAllOk ⟨some 2, [sceneIdx0], none⟩ ["a.mp4"] none none
    (by
      intro s hs i hi
      simp only [List.mem_singleton] at hs
      subst hs
      simp only [sceneIdx0, Option.some.injEq, SrcRef.idx.injEq] at hi
      subst hi
      norm_num)

/-- Counterexample to C8 as stated: a (dict) script whose only scene
references source index 5 while just two clips are supplied comes back
with that scene's `source_video` clamped to 1 — the caller's script was
mutated even though the call returned successfully. -/
theorem composer_script_readonly_counterexample :
    (video_composer envAllOk ⟨some 2, [sceneIdx5], none⟩
        ["a.mp4", "b.mp4"] none none).scenesAfter
      = [{ sceneIdx5 with source_video := some (.idx 1) }] ∧
    [{ sceneIdx5 with source_video := some (.idx 1) }] ≠ [sceneIdx5] ∧
    (video_composer envAllOk ⟨some 2, [sceneIdx5], none⟩
        ["a.mp4", "b.mp4"] none none).result = .ok "composed_video.mp4" := by
  refine ⟨?_, by simp [sceneIdx5], ?_⟩ <;>
    norm_num [video_composer, extractLoop, extractScene, extractSceneCore,
      mutateScene, resolveSourceVideo, clampIdx, clampTimes, loadLoop, acquireH,
      releaseH, HSt.init, finishPhase, audioPhase, envAllOk, sceneIdx5,
      Except.map, List.zip]

/-- **C2** (code bug).  A scene whose JSON `duration` is the string `"2"`
makes `expected_total_duration += scene.get("duration", ...)` raise a
`TypeError` after the segment's `VideoFileClip` was opened but before it
was appended to `video_clips_loaded`; the except-path cleanup only closes
clips in `video_clips_loaded`, so that handle is acquired and never
released — the call raises with a leaked clip handle, contradicting the
close-exactly-once guarantee. -/
theorem composer_segment_clip_leak :
    (video_composer envAllOk ⟨some 2, [sceneStrDur], none⟩ ["a.mp4"] none none).result
      = .error "Error composing video: TypeError: float + str" ∧
    (video_composer envAllOk ⟨some 2, [sceneStrDur], none⟩ ["a.mp4"] none none).events
      = [.acquire .probe 0, .release 0, .acquire .segment 1] ∧
    ¬ ClosedExactlyOnce
      (video_composer envAllOk ⟨some 2, [sceneStrDur], none⟩ ["a.mp4"] none none).events := by
  have hres : (video_composer envAllOk ⟨some 2, [sceneStrDur], none⟩
      ["a.mp4"] none none).result
      = .error ("Error composing video: " ++ "TypeError: float + str") := by
    norm_num [video_composer, extractLoop, extractScene, extractSceneCore,
      mutateScene, resolveSourceVideo, clampIdx, clampTimes, loadLoop, acquireH,
      releaseH, HSt.init, finishPhase, audioPhase, envAllOk, sceneStrDur,
      Except.map, List.zip]
  have hev : (video_composer envAllOk ⟨some 2, [sceneStrDur], none⟩
      ["a.mp4"] none none).events
      = [.acquire .probe 0, .release 0, .acquire .segment 1] := by
    norm_num [video_composer, extractLoop, extractScene, extractSceneCore,
      mutateScene, resolveSourceVideo, clampIdx, clampTimes, loadLoop, acquireH,
      releaseH, HSt.init, finishPhase, audioPhase, envAllOk, sceneStrDur,
      Except.map, List.zip]
  refine ⟨by simpa using hres, hev, ?_⟩
  rw [hev]
  unfold ClosedExactlyOnce
  decide

theorem finishPhase_nonfatal (env : ComposerEnv) (st : HSt) (scenes : List CScene)
    (loaded : List ℕ) (ds : List ℚ) (music thumb : Option String)
    (hc : env.composeOk = true) (hw : env.writeOk = true) :
    (finishPhase env st scenes loaded ds music thumb).result = .ok "composed_video.mp4" ∧
    (env.thumbOverlayOk = false →
      (finishPhase env st scenes loaded ds music thumb).hasThumb = false) ∧
    (env.audioOpsOk = false →
      (finishPhase env st scenes loaded ds music thumb).hasAudio = false) ∧
    (env.audioDuration = .error () →
      (finishPhase env st scenes loaded ds music thumb).hasAudio = false) := by
  refine ⟨?_, ?_, ?_, ?_⟩
  · simp [finishPhase, hc, hw]
  · intro h
    cases thumb <;> simp [finishPhase, hc, hw, h]
  · intro h
    cases music with
    | none => simp [finishPhase, audioPhase, hc, hw]
    | some m =>
      cases hf : env.fileExists m
      · simp [finishPhase, audioPhase, hc, hw, hf]
      · cases ha : env.audioDuration
        · simp [finishPhase, audioPhase, hc, hw, hf, ha]
        · simp [finishPhase, audioPhase, acquireH, hc, hw, hf, ha, h]
  · intro h
    cases music with
    | none => simp [finishPhase, audioPhase, hc, hw]
    | some m =>
      cases hf : env.fileExists m
      · simp [finishPhase, audioPhase, hc, hw, hf]
      · simp [finishPhase, audioPhase, hc, hw, hf, h]

/-- **C10**.  Once the scene clips are composed (extraction and load both
succeeded) and the final write succeeds, a failure in the thumbnail-overlay
block or in the music load/loop/mix block never aborts the call: the
composer still returns the rendered artifact path, without the thumbnail
overlay or without the audio track respectively. -/
theorem composer_thumb_music_nonfatal (env : ComposerEnv) (script : CScript)
    (c : String) (cs : List String) (music thumb : Option String)
    (st1 st2 : HSt) (scenes1 : List CScene) (cps : List String)
    (loaded : List ℕ) (ds : List ℚ)
    (hne : script.scenes ≠ [])
    (hfiles : (c :: cs).any (fun p => !(env.fileExists p)) = false)
    (hthumb : thumb.any (fun t => !(env.fileExists t)) = false)
    (hex : extractLoop env (c :: cs) HSt.init script.scenes = (st1, scenes1, .ok cps))
    (hload : loadLoop env st1 [] (cps.zip scenes1) = (st2, loaded, .ok ds))
    (hc : env.composeOk = true) (hw : env.writeOk = true) :
    (video_composer env script (c :: cs) music thumb).result = .ok "composed_video.mp4" ∧
    (env.thumbOverlayOk = false →
      (video_composer env script (c :: cs) music thumb).hasThumb = false) ∧
    (env.audioOpsOk = false →
      (video_composer env script (c :: cs) music thumb).hasAudio = false) ∧
    (env.audioDuration = .error () →
      (video_composer env script (c :: cs) music thumb).hasAudio = false) := by
  have hvc : video_composer env script (c :: cs) music thumb =
      finishPhase env st2 scenes1 loaded ds music thumb := by
    unfold video_composer
    rcases hsc : script.scenes with - | ⟨s, ss⟩
    · exact absurd hsc hne
    · rw [hsc] at hex
      simp [hfiles, hthumb, hex, hload]
  rw [hvc]
  exact finishPhase_nonfatal env st2 scenes1 loaded ds music thumb hc hw

/-- Witness for C10: both the thumbnail overlay and the audio mixing fail,
yet the composed artifact is still produced, with neither overlay nor
audio. -/
theorem composer_thumb_music_nonfatal_witness :
    (video_composer { envAllOk with thumbOverlayOk := false, audioOpsOk := false }
        ⟨some 2, [sceneIdx0], none⟩ ["a.mp4"] (some "m.mp3") (some "t.png")).result
      = .ok "composed_video.mp4" ∧
    ({ envAllOk with thumbOverlayOk := false, audioOpsOk := false }.thumbOverlayOk = false →
      (video_composer { envAllOk with thumbOverlayOk := false, audioOpsOk := false }
          ⟨some 2, [sceneIdx0], none⟩ ["a.mp4"] (some "m.mp3") (some "t.png")).hasThumb
        = false) ∧
    ({ envAllOk with thumbOverlayOk := false, audioOpsOk := false }.audioOpsOk = false →
      (video_composer { envAllOk with thumbOverlayOk := false, audioOpsOk := false }
          ⟨some 2, [sceneIdx0], none⟩ ["a.mp4"] (some "m.mp3") (some "t.png")).hasAudio
        = false) ∧
    ({ envAllOk with thumbOverlayOk := false, audioOpsOk := false }.audioDuration = .error () →
      (video_composer { envAllOk with thumbOverlayOk := false, audioOpsOk := false }
          ⟨some 2, [sceneIdx0], none⟩ ["a.mp4"] (some "m.mp3") (some "t.png")).hasAudio
        = false) :=
  composer_thumb_music_nonfatal
    { envAllOk with thumbOverlayOk := false, audioOpsOk := false }
    ⟨some 2, [sceneIdx0], none⟩ "a.mp4" [] (some "m.mp3") (some "t.png")
    ⟨1, [.acquire .probe 0, .release 0]⟩
    ⟨2, [.acquire .probe 0, .release 0, .acquire .segment 1]⟩
    [sceneIdx0] ["clipped_seg"] [1] [2]
    (by simp)
    (by simp [envAllOk])
    (by simp [envAllOk])
    (by norm_num [extractLoop, extractScene, extractSceneCore, mutateScene,
      resolveSourceVideo, clampIdx, clampTimes, acquireH, releaseH, HSt.init,
      envAllOk, sceneIdx0, Except.map])
    (by norm_num [loadLoop, acquireH, HSt.init, envAllOk, sceneIdx0, Except.map,
      List.zip])
    rfl rfl

end Vidzly
